import Mathlib

/-!
# Verification of the RealEstate property aggregator (`proto.py`, `app.py`)

Shallow embedding of the normalization and cost-estimation core of the
`PropertyAggregator` class:

* `estimate_monthly_costs` (proto.py lines 190-225),
* the us-real-estate normalizer `parse_data` (lines 277-365),
* the Zillow normalizer `parse_zillow_data` (lines 47-136),
* the per-source fetch `fetch_data` (lines 254-275, the effective, second
  definition in the file) and the aggregator `fetch_all_properties`
  (lines 367-376), and
* the per-request flow of the Flask route `properties` (app.py lines 26-40),
  which builds a fresh `PropertyAggregator` per call.

Modelling conventions:

* Python floats are modelled as exact rationals (`ℚ`).  Python's
  `round(x, n)` is modelled as exact decimal rounding of the rational value
  (ties round half-up rather than to the binary-float nearest-even; no claim
  below depends on a half-cent tie or on binary representation error).
* A JSON field that the code reads with `dict.get` is modelled as an
  `Option`-typed field; `none` stands for the key being absent (or, where
  the code tests truthiness of a sub-object, for an absent/empty/null
  sub-object).  Explicit JSON `null` values for scalar keys that the code
  reads with a non-null default are not modelled separately.
* Strings are ASCII in every concrete input considered; `urllib.parse.quote`
  is modelled per character on code points below 256.
-/

/-- Python's `x or d` on a float-or-None `x`: `None` and `0` are falsy and
yield the default, any other number is returned unchanged. -/
def pyOrQ (x : Option ℚ) (d : ℚ) : ℚ :=
  match x with
  | none => d
  | some v => if v = 0 then d else v

/-- Python's `s or d` on a string-or-None `s`: `None` and `""` are falsy. -/
def pyOrStr (x : Option String) (d : String) : String :=
  match x with
  | none => d
  | some s => if s = "" then d else s

/-- Python's `round(x, 2)` on an exact rational value: round `100 * x` to the
nearest integer (ties half-up, see the module comment) and divide by 100. -/
def round2 (q : ℚ) : ℚ := ((q * 100 + 1/2).floor : ℚ) / 100

/-- Python's `round(x, 4)` on an exact rational value. -/
def round4 (q : ℚ) : ℚ := ((q * 10000 + 1/2).floor : ℚ) / 10000

/-- List-level substring test: `needle` occurs contiguously in `hay`. -/
def listContains (hay needle : List Char) : Bool :=
  match hay with
  | [] => needle.isEmpty
  | _ :: t => needle.isPrefixOf hay || listContains t needle

/-- Python's `needle in hay` on strings (contiguous substring test). -/
def strContains (hay needle : String) : Bool :=
  listContains hay.toList needle.toList

/-- Uppercase hexadecimal digit for `n < 16`. -/
def hexDigit (n : Nat) : Char :=
  if n < 10 then Char.ofNat (48 + n) else Char.ofNat (55 + n)

/-- One character of `urllib.parse.quote` with the default `safe='/'`:
letters, digits, `_ . - ~` and `/` pass through, everything else is
percent-encoded (ASCII code points; multi-byte UTF-8 is not modelled). -/
def quoteChar (c : Char) : String :=
  if c.isAlphanum || c = '_' || c = '.' || c = '-' || c = '~' || c = '/' then
    String.singleton c
  else
    "%" ++ String.singleton (hexDigit (c.toNat % 256 / 16))
        ++ String.singleton (hexDigit (c.toNat % 16))

/-- Model of `urllib.parse.quote(s)` with the default `safe='/'`. -/
def pyQuote (s : String) : String :=
  String.join (s.toList.map quoteChar)

/-- Python's `str.lower()` (ASCII range; the strings this program compares
are ASCII). -/
def pyLower (s : String) : String :=
  String.mk (s.toList.map Char.toLower)

/-- Python's `str.strip()`: remove leading and trailing whitespace. -/
def pyStrip (s : String) : String :=
  String.mk
    (((s.toList.dropWhile Char.isWhitespace).reverse.dropWhile
        Char.isWhitespace).reverse)

/-- Python's `str.replace(old, new)` for a single-character pattern and
replacement, as in `address.replace(' ', '-')`. -/
def pyReplaceChar (s : String) (old new : Char) : String :=
  String.mk (s.toList.map (fun c => if c = old then new else c))

/-- Rendering of a non-negative-exponent decimal fraction used by
`str(round(x, n))`: integer part, then up to `n` fractional digits with
trailing zeros removed, `.0` when the value is integral.  This models
Python's `str` on the floats this program produces closely enough for the
fields no claim depends on (`lotsize`); binary-float `repr` subtleties are
not modelled.  `dropTrailingZeros` removes trailing `'0'` characters. -/
def dropTrailingZeros : List Char → List Char
  | [] => []
  | c :: t => match dropTrailingZeros t with
              | [] => if c = '0' then [] else [c]
              | l => c :: l

/-- See `pyFloatStr`. -/
def pyFloatStr (q : ℚ) : String :=
  let sign := if q < 0 then "-" else ""
  let a := |q|
  let ip : Nat := a.floor.toNat
  let fracDigits : Nat := ((a - a.floor) * 10000).floor.toNat
  let padded := (Nat.toDigits 10 fracDigits)
  let padded := List.replicate (4 - padded.length) '0' ++ padded
  let kept := dropTrailingZeros padded
  sign ++ toString ip ++ "." ++ (if kept.isEmpty then "0" else String.mk kept)

/-- The breakdown dictionary returned by `estimate_monthly_costs`
(proto.py lines 211-223), one field per key. -/
structure MonthlyCosts where
  property_tax : ℚ
  insurance : ℚ
  utilities : ℚ
  hoa_maintenance : ℚ
  misc_expenses : ℚ
  municipal_services : ℚ
  total_monthly_non_mortgage_costs : ℚ
deriving DecidableEq, Repr

/-- The annual component `annual_property_tax = price * 0.02` (proto.py line 200), on the
already-coerced price. -/
def annual_property_tax (price : ℚ) : ℚ := price * 0.02

/-- The annual component `annual_insurance = price * 0.005` (line 201). -/
def annual_insurance (price : ℚ) : ℚ := price * 0.005

/-- The annual component `annual_utilities = sqft * 2.0` (line 202). -/
def annual_utilities (sqft : ℚ) : ℚ := sqft * 2.0

/-- Truth value of `'condo' in property_type or 'apartment' in property_type`
(line 205), on the already-lowercased kind string. -/
def isCondoOrApartment (property_type : String) : Bool :=
  strContains property_type "condo" || strContains property_type "apartment"

/-- The annual component `annual_hoa = price * 0.004 if 'condo' in property_type or 'apartment' in
property_type else 0` (line 205). -/
def annual_hoa (price : ℚ) (property_type : String) : ℚ :=
  if isCondoOrApartment property_type then price * 0.004 else 0

/-- The annual component `annual_misc = price * 0.001` (line 207). -/
def annual_misc (price : ℚ) : ℚ := price * 0.001

/-- The annual component `annual_municipal = price * 0.0005` (line 208). -/
def annual_municipal (price : ℚ) : ℚ := price * 0.0005

/-- The estimator `estimate_monthly_costs(price, sqft, property_type)` (proto.py
lines 190-225).  Inputs are optional to model `None` arguments; the code
coerces them with `price or 500000`, `sqft or 1500`,
`str(property_type or 'Unknown').lower()`. -/
def estimate_monthly_costs (price sqft : Option ℚ) (property_type : Option String) :
    MonthlyCosts :=
  let price := pyOrQ price 500000
  let sqft := pyOrQ sqft 1500
  let ptype := pyLower (pyOrStr property_type "Unknown")
  { property_tax := round2 (annual_property_tax price / 12)
    insurance := round2 (annual_insurance price / 12)
    utilities := round2 (annual_utilities sqft / 12)
    hoa_maintenance := round2 (annual_hoa price ptype / 12)
    misc_expenses := round2 (annual_misc price / 12)
    municipal_services := round2 (annual_municipal price / 12)
    total_monthly_non_mortgage_costs := round2
      ((annual_property_tax price + annual_insurance price +
        annual_utilities sqft + annual_hoa price ptype +
        annual_misc price + annual_municipal price) / 12) }

/-- The canonical property record appended to `parsed_properties` by both
normalizers.  Fields the code always fills with a non-null default are
plainly typed; `thumbnail_url`, `tags` and `source` can be absent/None in
the produced Python dict and are `Option`-typed. -/
structure PropertyRecord where
  price : ℚ
  address : String
  bedrooms : Int
  bathrooms : Int
  sqft : ℚ
  lotsize : String
  property_type : String
  tags : Option (List String)
  thumbnail_url : Option String
  listing_url : String
  source : Option String
deriving DecidableEq, Repr

/-- An object with an optional `href`, as in `primary_photo` / `images[i]`. -/
structure PhotoObj where
  href : Option String
deriving DecidableEq, Repr

/-- The `description` sub-object of a us-real-estate result
(beds / baths / sqft / lot_sqft / type). -/
structure USDescription where
  beds : Option Int
  baths : Option Int
  sqft : Option ℚ
  lot_sqft : Option ℚ
  type : Option String
deriving DecidableEq, Repr

/-- The `location.address` sub-object of a us-real-estate result.  The code
also reads `coordinate.lat/lon` but never uses them (the neighborhood call
is commented out), so coordinates are not modelled. -/
structure USAddress where
  line : Option String
  city : Option String
  state_code : Option String
deriving DecidableEq, Repr

/-- One element of `data.home_search.results[]` in the us-real-estate
response.  `description = none` models `prop.get('description', {})` being
falsy (key absent, or an empty/null object); similarly for `location` and
`primary_photo`. -/
structure USProp where
  description : Option USDescription
  location : Option USAddress
  list_price : Option ℚ
  permalink : Option String
  primary_photo : Option PhotoObj
  tags : Option (List String)
deriving DecidableEq, Repr

/-- The `data.home_search` sub-object of the us-real-estate response;
`results = none` models `home_search.get('results', [])` being absent. -/
structure USHomeSearch where
  results : Option (List USProp)
deriving DecidableEq, Repr

/-- The `data` sub-object of the us-real-estate response;
`home_search = none` models `.get('home_search', {})` being absent/falsy. -/
structure USData where
  home_search : Option USHomeSearch
deriving DecidableEq, Repr

/-- The us-real-estate response.  `data = none` models the guard
`if not data or 'data' not in data` firing (response falsy, or no `data`
key). -/
structure USResponse where
  data : Option USData
deriving DecidableEq, Repr

/-- One element of `props[]` in the Zillow extended-search response.
`homeType` is the upstream classification field present in Zillow payloads;
the code never reads it. -/
structure ZProp where
  address : Option String
  price : Option ℚ
  bedrooms : Option Int
  bathrooms : Option Int
  livingArea : Option ℚ
  lotAreaValue : Option ℚ
  lotAreaUnit : Option String
  imgSrc : Option String
  image : Option String
  photo : Option String
  primary_photo : Option PhotoObj
  images : Option (List PhotoObj)
  url : Option String
  homeType : Option String
deriving DecidableEq, Repr

/-- The Zillow extended-search response: `data.get('props', [])`. -/
structure ZResponse where
  props : Option (List ZProp)
deriving DecidableEq, Repr

/-- The `image_sources` list built at proto.py lines 77-82: `image`, `photo`,
`primary_photo.href`, and `images[0].href` when `images` is present and
non-empty (`prop.get('images', [{}])[0].get('href') if prop.get('images')
else None`). -/
def zillowImageSources (p : ZProp) : List (Option String) :=
  [p.image, p.photo,
   p.primary_photo.bind PhotoObj.href,
   match p.images with
   | some (i :: _) => i.href
   | _ => none]

/-- The loop guard at proto.py line 88:
`if img and isinstance(img, str) and 'placeholder' not in img.lower()`.
Candidates are modelled as optional strings, so the `isinstance` test is
always satisfied by a present value. -/
def acceptableImage (o : Option String) : Bool :=
  match o with
  | some s => s ≠ "" && !(strContains (pyLower s) "placeholder")
  | none => false

/-- The first candidate of the fallback loop (lines 87-90) that passes
`acceptableImage`, if any. -/
def firstFallbackImage (l : List (Option String)) : Option String :=
  (l.find? acceptableImage).bind id

/-- The synthesized placeholder URL of proto.py line 94:
`f"https://via.placeholder.com/200x150.png?text={urllib.parse.quote(f'{bedrooms} Bed {bathrooms} Bath')}"`. -/
def placeholderThumbnail (bedrooms bathrooms : Int) : String :=
  "https://via.placeholder.com/200x150.png?text=" ++
    pyQuote (toString bedrooms ++ " Bed " ++ toString bathrooms ++ " Bath")

/-- Thumbnail resolution of `parse_zillow_data` (proto.py lines 74-94):
`imgSrc` when truthy, else the first acceptable fallback image, else the
synthesized placeholder. -/
def zillowThumbnail (p : ZProp) : String :=
  let fromImgSrc : Option String :=
    match p.imgSrc with
    | some s => if s = "" then none else some s
    | none => none
  match fromImgSrc with
  | some s => s
  | none =>
      match firstFallbackImage (zillowImageSources p) with
      | some s => s
      | none => placeholderThumbnail (p.bedrooms.getD 0) (p.bathrooms.getD 0)

/-- Listing URL of `parse_zillow_data` (proto.py lines 97-100): `url` when
truthy, else
`f"https://www.zillow.com/homes/{urllib.parse.quote(address.replace(' ', '-'))}"`. -/
def zillowListingURL (p : ZProp) (address : String) : String :=
  let fallback :=
    "https://www.zillow.com/homes/" ++
      pyQuote (pyReplaceChar address ' ' '-')
  match p.url with
  | some u => if u = "" then fallback else u
  | none => fallback

/-- The `lotsize` string of `parse_zillow_data` (proto.py lines 69-71):
`' '.join([str(prop.get('lotAreaValue', 0)), str(prop.get('lotAreaUnit', 0))])`
(the `or 'N/A'` / `or ''` branches are dead: `str` of a number is never
empty).  An absent key stringifies its integer default `0` as `"0"`. -/
def zillowLotsize (p : ZProp) : String :=
  let v := match p.lotAreaValue with
           | none => "0"
           | some q => pyFloatStr q
  let u := match p.lotAreaUnit with
           | none => "0"
           | some s => s
  v ++ " " ++ u

/-- The record appended for one Zillow prop (proto.py lines 109-121). -/
def parseZillowProp (p : ZProp) : PropertyRecord :=
  let address := p.address.getD "N/A"
  { price := p.price.getD 0
    address := address
    bedrooms := p.bedrooms.getD 0
    bathrooms := p.bathrooms.getD 0
    sqft := p.livingArea.getD 0
    lotsize := zillowLotsize p
    property_type := "Single Family"
    tags := some []
    thumbnail_url := some (zillowThumbnail p)
    listing_url := zillowListingURL p address
    source := some "Zillow" }

/-- The normalizer `parse_zillow_data(data)` (proto.py lines 47-136): every element of
`data.get('props', [])` yields one record.  The per-record `try/except`
never fires in this total model. -/
def parse_zillow_data (d : ZResponse) : List PropertyRecord :=
  (d.props.getD []).map parseZillowProp

/-- The `lotsize` string of the us-real-estate branch (proto.py lines 307-313): when
`lot_sqft` is truthy, `str(round(lot_sqft / 43560, 4))` followed by
`" acres"`, else `"N/A"` (the initial `"... sqft"` assignment at line 307 is
always overwritten). -/
def usLotsize (desc : USDescription) : String :=
  let ls := desc.lot_sqft.getD 0
  if ls ≠ 0 then pyFloatStr (round4 (ls / 43560)) ++ " acres" else "N/A"

/-- Listing URL of the us-real-estate branch (proto.py line 328):
the realtor.com detail URL when `permalink` is truthy, else `''`. -/
def usListingURL (p : USProp) : String :=
  match p.permalink with
  | some pl =>
      if pl = "" then ""
      else "https://www.realtor.com/realestateandhomes-detail/" ++ pl
  | none => ""

/-- Address of the us-real-estate branch (proto.py line 342):
`f"{location.get('line', '')} {location.get('city', '')} {location.get('state_code', '')}".strip()`. -/
def usAddress (p : USProp) : String :=
  let loc := p.location.getD ⟨none, none, none⟩
  pyStrip ((loc.line.getD "") ++ " " ++ (loc.city.getD "") ++ " " ++
    (loc.state_code.getD ""))

/-- The record appended for one non-skipped us-real-estate result
(proto.py lines 340-351). -/
def usBuildRecord (p : USProp) (desc : USDescription) : PropertyRecord :=
  { price := p.list_price.getD 0
    address := usAddress p
    bedrooms := desc.beds.getD 0
    bathrooms := desc.baths.getD 0
    sqft := desc.sqft.getD 0
    lotsize := usLotsize desc
    property_type := desc.type.getD "Unknown"
    tags := p.tags
    thumbnail_url := p.primary_photo.bind PhotoObj.href
    listing_url := usListingURL p
    source := none }

/-- Treatment of one us-real-estate result (proto.py lines 296-351):
`none` when the result is skipped by
`if not description or (description.get('beds', 0) and
description.get('beds', 0) < 3): continue`, else the built record. -/
def parseUSProp (p : USProp) : Option PropertyRecord :=
  match p.description with
  | none => none
  | some desc =>
      if desc.beds.getD 0 ≠ 0 ∧ desc.beds.getD 0 < 3 then none
      else some (usBuildRecord p desc)

/-- The us-real-estate branch of `parse_data` (proto.py lines 280-359),
including the three structural guards on `data`, `home_search`, `results`. -/
def parse_us_data (d : USResponse) : List PropertyRecord :=
  match d.data with
  | none => []
  | some dd =>
      match dd.home_search with
      | none => []
      | some hs =>
          match hs.results with
          | none => []
          | some props =>
              if props.isEmpty then [] else props.filterMap parseUSProp

/-- The two configured sources, in the insertion order of `self.apis`
(proto.py lines 24-45): `'us-real-estate'` first, `'zillow'` second. -/
inductive ApiName where
  | usRealEstate
  | zillow
deriving DecidableEq, Repr

/-- A decoded JSON response body, shaped for one of the two sources.  A body
of the wrong shape simply lacks the other source's keys. -/
inductive SourceData where
  | usData (r : USResponse)
  | zData (r : ZResponse)
deriving DecidableEq, Repr

/-- The dispatcher `parse_data(api_name, data)` (proto.py lines 277-365).  A
us-real-estate parse of a Zillow-shaped body hits the `'data' not in data`
guard and returns `[]`; a Zillow parse of a us-real-estate-shaped body
reads `data.get('props', [])` and returns `[]`. -/
def parse_data (api : ApiName) (data : SourceData) : List PropertyRecord :=
  match api, data with
  | .usRealEstate, .usData r => parse_us_data r
  | .usRealEstate, .zData _ => []
  | .zillow, .zData r => parse_zillow_data r
  | .zillow, .usData _ => []

/-- Outcome of one HTTP fetch: a response with a status code and decoded
body, or a transport exception. -/
inductive FetchOutcome where
  | ok (status : Nat) (body : SourceData)
  | exn
deriving DecidableEq, Repr

/-- The fetch `fetch_data(session, api_name)` (proto.py lines 254-275, the second and
therefore effective definition of the method): parse on HTTP 200, empty
list on any other status (logged, never raised) and on any exception. -/
def fetch_data (api : ApiName) (out : FetchOutcome) : List PropertyRecord :=
  match out with
  | .ok status body => if status = 200 then parse_data api body else []
  | .exn => []

/-- A fetch outcome the code treats as a failure for that source: a
non-200 status or a transport exception. -/
def fetchFails (out : FetchOutcome) : Bool :=
  match out with
  | .ok status _ => status ≠ 200
  | .exn => true

/-- The mutable state of a `PropertyAggregator` instance relevant to
aggregation: the constructor arguments and the `self.properties`
accumulator, initialised to `[]` (proto.py lines 19-23). -/
structure PropertyAggregator where
  city : String
  state : String
  properties : List PropertyRecord
deriving DecidableEq, Repr

/-- The constructor `PropertyAggregator.__init__` (proto.py lines 19-23):
`self.properties = []`. -/
def PropertyAggregator.init (city state : String) : PropertyAggregator :=
  { city := city, state := state, properties := [] }

/-- Model of `await asyncio.gather(*tasks)` over the two per-source fetch tasks
(proto.py line 374).  `asyncio.gather` returns the task results in the
order the tasks were passed, regardless of which response completed first;
`zillowFirst` records which response completed first and provably does not
influence the result. -/
def gatherResults (zillowFirst : Bool) (outUS outZillow : FetchOutcome) :
    List (List PropertyRecord) :=
  let _ := zillowFirst
  [fetch_data .usRealEstate outUS, fetch_data .zillow outZillow]

/-- The method `fetch_all_properties` (proto.py lines 367-376): gather both fetches,
then `self.properties.extend(result)` for each result in gather order. -/
def fetch_all_properties (agg : PropertyAggregator) (zillowFirst : Bool)
    (outUS outZillow : FetchOutcome) : PropertyAggregator :=
  { agg with
    properties :=
      (gatherResults zillowFirst outUS outZillow).foldl (· ++ ·) agg.properties }

/-- One POST to the Flask route `properties` (app.py lines 26-40): a fresh
`PropertyAggregator` is constructed for the submitted location,
`fetch_all_properties` is awaited once, and `aggregator.properties` is
rendered. -/
def appProperties (city state : String) (zillowFirst : Bool)
    (outUS outZillow : FetchOutcome) : List PropertyRecord :=
  (fetch_all_properties (PropertyAggregator.init city state)
      zillowFirst outUS outZillow).properties

/-! ## Concrete inputs and spec-side comparison definitions -/

/-- A Zillow prop with every key absent. -/
def emptyZProp : ZProp where
  address := none
  price := none
  bedrooms := none
  bathrooms := none
  livingArea := none
  lotAreaValue := none
  lotAreaUnit := none
  imgSrc := none
  image := none
  photo := none
  primary_photo := none
  images := none
  url := none
  homeType := none

/-- A us-real-estate description with every key absent. -/
def emptyUSDescription : USDescription where
  beds := none
  baths := none
  sqft := none
  lot_sqft := none
  type := none

/-- A us-real-estate result with every key absent. -/
def emptyUSProp : USProp where
  description := none
  location := none
  list_price := none
  permalink := none
  primary_photo := none
  tags := none

/-- A us-real-estate response whose `data.home_search.results` holds the
given results. -/
def usResponseOf (props : List USProp) : USResponse :=
  { data := some { home_search := some { results := some props } } }

/-- Spec-side skip predicate, following the claim wording: a result is
skipped exactly when its `description` object is absent, or its
`description.beds` value is present, non-zero, and strictly below 3. -/
def usSkipSpec (p : USProp) : Bool :=
  match p.description with
  | none => true
  | some d =>
      match d.beds with
      | none => false
      | some b => b ≠ 0 && b < 3

/-- A three-bed us-real-estate result with no `primary_photo` key
(and no photo fallback of any kind). -/
def c2Prop : USProp :=
  { emptyUSProp with
      description := some { emptyUSDescription with beds := some 3 }
      list_price := some 750000 }

/-- A result whose `description.beds` is `1`. -/
def c5BedsOne : USProp :=
  { emptyUSProp with
      description := some { emptyUSDescription with beds := some 1 } }

/-- A result whose `description` is present but has no `beds` key. -/
def c5NoBeds : USProp :=
  { emptyUSProp with
      description := some { emptyUSDescription with type := some "condos" } }

/-- A Zillow prop with no image fields at all, `bedrooms = 3` and
`bathrooms = 2`. -/
def c6Prop : ZProp :=
  { emptyZProp with
      address := some "9 Elm St"
      bedrooms := some 3
      bathrooms := some 2 }

/-- Spec-side fallback scan, following the claim wording: the first
candidate that is a non-empty string not containing `"placeholder"`
case-insensitively. -/
def specFirstGoodImage : List (Option String) → Option String
  | [] => none
  | none :: t => specFirstGoodImage t
  | some s :: t =>
      if s ≠ "" ∧ strContains (pyLower s) "placeholder" = false then some s
      else specFirstGoodImage t

/-- Spec-side thumbnail resolution, following the claim wording: the
`imgSrc` field if non-empty; otherwise the first good candidate among
`image`, `photo`, `primary_photo.href`, first `images[].href`; otherwise
the synthesized placeholder URL for "`<bedrooms>` Bed `<bathrooms>` Bath". -/
def specZillowThumbnail (p : ZProp) : String :=
  let fallback :=
    match specFirstGoodImage
        [p.image, p.photo, p.primary_photo.bind PhotoObj.href,
         match p.images with
         | some (i :: _) => i.href
         | _ => none] with
    | some s => s
    | none => placeholderThumbnail (p.bedrooms.getD 0) (p.bathrooms.getD 0)
  match p.imgSrc with
  | some s => if s = "" then fallback else s
  | none => fallback

/-- Spec-side merge, following the claim wording: the two sources'
normalized records concatenated in response-completion order
(`zillowFirst = true` meaning the Zillow response completed first). -/
def completionOrderMerge (zillowFirst : Bool) (outUS outZillow : FetchOutcome) :
    List PropertyRecord :=
  if zillowFirst then
    fetch_data .zillow outZillow ++ fetch_data .usRealEstate outUS
  else
    fetch_data .usRealEstate outUS ++ fetch_data .zillow outZillow

/-- A us-real-estate outcome carrying one three-bed result. -/
def c9OutUS : FetchOutcome :=
  .ok 200 (.usData (usResponseOf
    [{ emptyUSProp with
         description := some { emptyUSDescription with beds := some 4 }
         list_price := some 111 }]))

/-- A Zillow outcome carrying one prop. -/
def c9OutZillow : FetchOutcome :=
  .ok 200 (.zData { props := some [{ emptyZProp with price := some 222 }] })

/-- A Zillow prop whose upstream classification (`homeType`) is `"Condo"`. -/
def c10PropTyped : ZProp :=
  { emptyZProp with homeType := some "Condo" }

/-- A Zillow prop with no upstream classification at all. -/
def c10PropUntyped : ZProp := emptyZProp

/-- A Zillow outcome used for the leakage run of C3. -/
def c3OutZillow : FetchOutcome :=
  .ok 200 (.zData { props := some [{ emptyZProp with price := some 555 }] })

/-! ## Shared helper lemmas -/

/-- The properties list a fresh aggregator renders is exactly the
concatenation, in task order, of the two sources' fetch results. -/
lemma appProperties_eq (c s : String) (zf : Bool) (oA oZ : FetchOutcome) :
    appProperties c s zf oA oZ =
      fetch_data .usRealEstate oA ++ fetch_data .zillow oZ := rfl

/-- A failed fetch (non-200 status or exception) contributes no records. -/
lemma fetch_data_of_fails {api : ApiName} {o : FetchOutcome}
    (h : fetchFails o = true) : fetch_data api o = [] := by
  cases o with
  | ok status body =>
      simp only [fetchFails, decide_eq_true_eq] at h
      simp [fetch_data, h]
  | exn => rfl

/-- Rounding to two decimals preserves non-negativity. -/
lemma round2_nonneg {q : ℚ} (h : 0 ≤ q) : 0 ≤ round2 q := by
  unfold round2
  have h1 : (0 : ℤ) ≤ (q * 100 + 1/2).floor :=
    Rat.le_floor.mpr (by push_cast; linarith)
  have h2 : (0 : ℚ) ≤ ((q * 100 + 1/2).floor : ℚ) := by exact_mod_cast h1
  linarith

/-- The coercion `pyOrQ` yields a non-negative value when the argument (if present) and
the default are non-negative. -/
lemma pyOrQ_nonneg {x : Option ℚ} {d : ℚ}
    (hx : ∀ v, x = some v → 0 ≤ v) (hd : 0 ≤ d) : 0 ≤ pyOrQ x d := by
  cases x with
  | none => simpa [pyOrQ] using hd
  | some v =>
      simp only [pyOrQ]
      split
      · exact hd
      · exact hx v rfl

/-- The HOA component is non-negative for a non-negative price. -/
lemma annual_hoa_nonneg {P : ℚ} (h : 0 ≤ P) (k : String) :
    0 ≤ annual_hoa P k := by
  unfold annual_hoa
  split
  · nlinarith
  · exact le_refl 0

/-- A rational with integer bounds has that floor. -/
lemma rat_floor_eq {x : ℚ} {z : ℤ} (h1 : (z:ℚ) ≤ x) (h2 : x < z + 1) :
    x.floor = z := by
  have hl : z ≤ x.floor := Rat.le_floor.mpr h1
  have hf : ((x.floor : ℤ) : ℚ) ≤ x := Rat.le_floor.mp (le_refl _)
  have hq : ((x.floor : ℤ) : ℚ) < (z:ℚ) + 1 := lt_of_le_of_lt hf h2
  have hu : x.floor < z + 1 := by exact_mod_cast hq
  omega

/-- Evaluation rule for `round2` from explicit integer bounds. -/
lemma round2_eq_of_bounds {q r : ℚ} (z : ℤ) (h1 : (z:ℚ) ≤ q * 100 + 1/2)
    (h2 : q * 100 + 1/2 < z + 1) (h3 : (z:ℚ)/100 = r) : round2 q = r := by
  unfold round2
  rw [rat_floor_eq h1 h2, h3]

/-- The breakdown record written out field by field. -/
lemma estimate_monthly_costs_def (price sqft : Option ℚ)
    (kind : Option String) :
    estimate_monthly_costs price sqft kind =
      { property_tax := round2 (annual_property_tax (pyOrQ price 500000) / 12)
        insurance := round2 (annual_insurance (pyOrQ price 500000) / 12)
        utilities := round2 (annual_utilities (pyOrQ sqft 1500) / 12)
        hoa_maintenance := round2
          (annual_hoa (pyOrQ price 500000) (pyLower (pyOrStr kind "Unknown")) / 12)
        misc_expenses := round2 (annual_misc (pyOrQ price 500000) / 12)
        municipal_services := round2 (annual_municipal (pyOrQ price 500000) / 12)
        total_monthly_non_mortgage_costs := round2
          ((annual_property_tax (pyOrQ price 500000) +
            annual_insurance (pyOrQ price 500000) +
            annual_utilities (pyOrQ sqft 1500) +
            annual_hoa (pyOrQ price 500000) (pyLower (pyOrStr kind "Unknown")) +
            annual_misc (pyOrQ price 500000) +
            annual_municipal (pyOrQ price 500000)) / 12) } := rfl

/-! ## Claims -/

/-- C1 counterexample.  The code sums six annual components
(property tax, insurance, utilities, HOA, misc, municipal services), not
five: at `price = 400000`, `area = 1000`, kind `"condo"` (all six annual
components non-zero) the returned total `1183.33` differs from the rounded
monthly value of every five-element subset of the annual components. -/
theorem c1_counterexample :
    (estimate_monthly_costs (some 400000) (some 1000)
        (some "condo")).total_monthly_non_mortgage_costs = 118333/100 ∧
    (118333/100 : ℚ) ≠ round2 ((annual_insurance 400000 + annual_utilities 1000 +
      annual_hoa 400000 "condo" + annual_misc 400000 + annual_municipal 400000) / 12) ∧
    (118333/100 : ℚ) ≠ round2 ((annual_property_tax 400000 + annual_utilities 1000 +
      annual_hoa 400000 "condo" + annual_misc 400000 + annual_municipal 400000) / 12) ∧
    (118333/100 : ℚ) ≠ round2 ((annual_property_tax 400000 + annual_insurance 400000 +
      annual_hoa 400000 "condo" + annual_misc 400000 + annual_municipal 400000) / 12) ∧
    (118333/100 : ℚ) ≠ round2 ((annual_property_tax 400000 + annual_insurance 400000 +
      annual_utilities 1000 + annual_misc 400000 + annual_municipal 400000) / 12) ∧
    (118333/100 : ℚ) ≠ round2 ((annual_property_tax 400000 + annual_insurance 400000 +
      annual_utilities 1000 + annual_hoa 400000 "condo" + annual_municipal 400000) / 12) ∧
    (118333/100 : ℚ) ≠ round2 ((annual_property_tax 400000 + annual_insurance 400000 +
      annual_utilities 1000 + annual_hoa 400000 "condo" + annual_misc 400000) / 12) := by
  have hk : isCondoOrApartment (pyLower (pyOrStr (some "condo") "Unknown")) = true := by
    decide
  have hk' : isCondoOrApartment "condo" = true := by decide
  refine ⟨?_, ?_, ?_, ?_, ?_, ?_, ?_⟩
  · rw [estimate_monthly_costs_def]
    show round2 _ = _
    rw [show annual_property_tax (pyOrQ (some 400000) 500000) +
          annual_insurance (pyOrQ (some 400000) 500000) +
          annual_utilities (pyOrQ (some 1000) 1500) +
          annual_hoa (pyOrQ (some 400000) 500000)
            (pyLower (pyOrStr (some "condo") "Unknown")) +
          annual_misc (pyOrQ (some 400000) 500000) +
          annual_municipal (pyOrQ (some 400000) 500000) = 14200 by
      norm_num [annual_property_tax, annual_insurance, annual_utilities,
        annual_hoa, annual_misc, annual_municipal, pyOrQ, hk]]
    exact round2_eq_of_bounds 118333 (by norm_num) (by norm_num) (by norm_num)
  · rw [show annual_insurance 400000 + annual_utilities 1000 +
          annual_hoa 400000 "condo" + annual_misc 400000 +
          annual_municipal 400000 = 6200 by
      norm_num [annual_insurance, annual_utilities, annual_hoa, annual_misc,
        annual_municipal, hk']]
    rw [round2_eq_of_bounds 51667 (by norm_num) (by norm_num) rfl]
    norm_num
  · rw [show annual_property_tax 400000 + annual_utilities 1000 +
          annual_hoa 400000 "condo" + annual_misc 400000 +
          annual_municipal 400000 = 12200 by
      norm_num [annual_property_tax, annual_utilities, annual_hoa, annual_misc,
        annual_municipal, hk']]
    rw [round2_eq_of_bounds 101667 (by norm_num) (by norm_num) rfl]
    norm_num
  · rw [show annual_property_tax 400000 + annual_insurance 400000 +
          annual_hoa 400000 "condo" + annual_misc 400000 +
          annual_municipal 400000 = 12200 by
      norm_num [annual_property_tax, annual_insurance, annual_hoa, annual_misc,
        annual_municipal, hk']]
    rw [round2_eq_of_bounds 101667 (by norm_num) (by norm_num) rfl]
    norm_num
  · rw [show annual_property_tax 400000 + annual_insurance 400000 +
          annual_utilities 1000 + annual_misc 400000 +
          annual_municipal 400000 = 12600 by
      norm_num [annual_property_tax, annual_insurance, annual_utilities,
        annual_misc, annual_municipal]]
    rw [round2_eq_of_bounds 105000 (by norm_num) (by norm_num) rfl]
    norm_num
  · rw [show annual_property_tax 400000 + annual_insurance 400000 +
          annual_utilities 1000 + annual_hoa 400000 "condo" +
          annual_municipal 400000 = 13800 by
      norm_num [annual_property_tax, annual_insurance, annual_utilities,
        annual_hoa, annual_municipal, hk']]
    rw [round2_eq_of_bounds 115000 (by norm_num) (by norm_num) rfl]
    norm_num
  · rw [show annual_property_tax 400000 + annual_insurance 400000 +
          annual_utilities 1000 + annual_hoa 400000 "condo" +
          annual_misc 400000 = 14000 by
      norm_num [annual_property_tax, annual_insurance, annual_utilities,
        annual_hoa, annual_misc, hk']]
    rw [round2_eq_of_bounds 116667 (by norm_num) (by norm_num) rfl]
    norm_num

/-- C1 (amended: six, not five, annual components).  For every price, area
and property kind, the `total_monthly_non_mortgage_costs` field equals the
sum of the six unrounded annual components divided by 12, rounded to 2
decimal places — and not, in general, the sum of the individually-rounded
monthly figures, as the concrete condo input shows. -/
theorem c1_total_is_round_of_unrounded_annual_sum :
    (∀ (price sqft : Option ℚ) (kind : Option String),
      (estimate_monthly_costs price sqft kind).total_monthly_non_mortgage_costs =
        round2 ((annual_property_tax (pyOrQ price 500000) +
                 annual_insurance (pyOrQ price 500000) +
                 annual_utilities (pyOrQ sqft 1500) +
                 annual_hoa (pyOrQ price 500000) (pyLower (pyOrStr kind "Unknown")) +
                 annual_misc (pyOrQ price 500000) +
                 annual_municipal (pyOrQ price 500000)) / 12)) ∧
    (estimate_monthly_costs (some 400000) (some 1000)
        (some "condo")).total_monthly_non_mortgage_costs ≠
      (estimate_monthly_costs (some 400000) (some 1000) (some "condo")).property_tax +
      (estimate_monthly_costs (some 400000) (some 1000) (some "condo")).insurance +
      (estimate_monthly_costs (some 400000) (some 1000) (some "condo")).utilities +
      (estimate_monthly_costs (some 400000) (some 1000) (some "condo")).hoa_maintenance +
      (estimate_monthly_costs (some 400000) (some 1000) (some "condo")).misc_expenses +
      (estimate_monthly_costs (some 400000) (some 1000) (some "condo")).municipal_services := by
  constructor
  · intro price sqft kind
    rfl
  · have hk : isCondoOrApartment (pyLower (pyOrStr (some "condo") "Unknown")) = true := by
      decide
    rw [estimate_monthly_costs_def]
    show round2 _ ≠ round2 _ + round2 _ + round2 _ + round2 _ + round2 _ + round2 _
    rw [show annual_property_tax (pyOrQ (some 400000) 500000) +
          annual_insurance (pyOrQ (some 400000) 500000) +
          annual_utilities (pyOrQ (some 1000) 1500) +
          annual_hoa (pyOrQ (some 400000) 500000)
            (pyLower (pyOrStr (some "condo") "Unknown")) +
          annual_misc (pyOrQ (some 400000) 500000) +
          annual_municipal (pyOrQ (some 400000) 500000) = 14200 by
      norm_num [annual_property_tax, annual_insurance, annual_utilities,
        annual_hoa, annual_misc, annual_municipal, pyOrQ, hk]]
    rw [show annual_property_tax (pyOrQ (some 400000) 500000) = 8000 by
          norm_num [annual_property_tax, pyOrQ],
        show annual_insurance (pyOrQ (some 400000) 500000) = 2000 by
          norm_num [annual_insurance, pyOrQ],
        show annual_utilities (pyOrQ (some 1000) 1500) = 2000 by
          norm_num [annual_utilities, pyOrQ],
        show annual_hoa (pyOrQ (some 400000) 500000)
            (pyLower (pyOrStr (some "condo") "Unknown")) = 1600 by
          norm_num [annual_hoa, pyOrQ, hk],
        show annual_misc (pyOrQ (some 400000) 500000) = 400 by
          norm_num [annual_misc, pyOrQ],
        show annual_municipal (pyOrQ (some 400000) 500000) = 200 by
          norm_num [annual_municipal, pyOrQ]]
    rw [round2_eq_of_bounds 118333 (by norm_num) (by norm_num) rfl,
        round2_eq_of_bounds 66667 (by norm_num) (by norm_num) rfl,
        round2_eq_of_bounds 16667 (by norm_num) (by norm_num) rfl]
    rw [round2_eq_of_bounds 13333 (by norm_num) (by norm_num) rfl,
        round2_eq_of_bounds 3333 (by norm_num) (by norm_num) rfl,
        round2_eq_of_bounds 1667 (by norm_num) (by norm_num) rfl]
    norm_num

/-- C4 counterexample.  The coercion `price or 500000` passes a negative
price through unchanged, so at `price = -100000` the returned
`property_tax` figure is negative: the claim fails for arbitrary inputs. -/
theorem c4_counterexample :
    ¬ (0 ≤ (estimate_monthly_costs (some (-100000)) (some 1500)
        (some "condo")).property_tax) := by
  rw [estimate_monthly_costs_def]
  show ¬ (0 ≤ round2 _)
  rw [show annual_property_tax (pyOrQ (some (-100000)) 500000) = -2000 by
        norm_num [annual_property_tax, pyOrQ]]
  rw [round2_eq_of_bounds (-16667) (by norm_num) (by norm_num) rfl]
  norm_num

/-- C4 (amended: for null or non-negative price and area inputs).  When the
supplied price and area are absent or non-negative, every figure returned
by `estimate_monthly_costs` is non-negative, for every property kind. -/
theorem c4_all_figures_nonneg :
    ∀ (price sqft : Option ℚ) (kind : Option String),
      (∀ v, price = some v → 0 ≤ v) → (∀ v, sqft = some v → 0 ≤ v) →
      0 ≤ (estimate_monthly_costs price sqft kind).property_tax ∧
      0 ≤ (estimate_monthly_costs price sqft kind).insurance ∧
      0 ≤ (estimate_monthly_costs price sqft kind).utilities ∧
      0 ≤ (estimate_monthly_costs price sqft kind).hoa_maintenance ∧
      0 ≤ (estimate_monthly_costs price sqft kind).misc_expenses ∧
      0 ≤ (estimate_monthly_costs price sqft kind).municipal_services ∧
      0 ≤ (estimate_monthly_costs price sqft kind).total_monthly_non_mortgage_costs := by
  intro price sqft kind hp hs
  have hP : 0 ≤ pyOrQ price 500000 := pyOrQ_nonneg hp (by norm_num)
  have hS : 0 ≤ pyOrQ sqft 1500 := pyOrQ_nonneg hs (by norm_num)
  have t1 : 0 ≤ annual_property_tax (pyOrQ price 500000) := by
    unfold annual_property_tax; positivity
  have t2 : 0 ≤ annual_insurance (pyOrQ price 500000) := by
    unfold annual_insurance; positivity
  have t3 : 0 ≤ annual_utilities (pyOrQ sqft 1500) := by
    unfold annual_utilities; positivity
  have t4 : 0 ≤ annual_hoa (pyOrQ price 500000)
      (pyLower (pyOrStr kind "Unknown")) := annual_hoa_nonneg hP _
  have t5 : 0 ≤ annual_misc (pyOrQ price 500000) := by
    unfold annual_misc; positivity
  have t6 : 0 ≤ annual_municipal (pyOrQ price 500000) := by
    unfold annual_municipal; positivity
  rw [estimate_monthly_costs_def]
  refine ⟨round2_nonneg ?_, round2_nonneg ?_, round2_nonneg ?_,
      round2_nonneg ?_, round2_nonneg ?_, round2_nonneg ?_, round2_nonneg ?_⟩ <;>
    · first
      | exact div_nonneg t1 (by norm_num)
      | exact div_nonneg t2 (by norm_num)
      | exact div_nonneg t3 (by norm_num)
      | exact div_nonneg t4 (by norm_num)
      | exact div_nonneg t5 (by norm_num)
      | exact div_nonneg t6 (by norm_num)
      | exact div_nonneg (by linarith) (by norm_num)

/-- Witness for `c4_all_figures_nonneg` at `price = 400000`, `area = 1000`,
kind `"condo"`. -/
theorem c4_witness :
    0 ≤ (estimate_monthly_costs (some 400000) (some 1000)
        (some "condo")).property_tax ∧
    0 ≤ (estimate_monthly_costs (some 400000) (some 1000)
        (some "condo")).insurance ∧
    0 ≤ (estimate_monthly_costs (some 400000) (some 1000)
        (some "condo")).utilities ∧
    0 ≤ (estimate_monthly_costs (some 400000) (some 1000)
        (some "condo")).hoa_maintenance ∧
    0 ≤ (estimate_monthly_costs (some 400000) (some 1000)
        (some "condo")).misc_expenses ∧
    0 ≤ (estimate_monthly_costs (some 400000) (some 1000)
        (some "condo")).municipal_services ∧
    0 ≤ (estimate_monthly_costs (some 400000) (some 1000)
        (some "condo")).total_monthly_non_mortgage_costs :=
  c4_all_figures_nonneg (some 400000) (some 1000) (some "condo")
    (fun v h => by injection h with h; rw [← h]; norm_num)
    (fun v h => by injection h with h; rw [← h]; norm_num)

/-- C8.  The `hoa_maintenance` component is `price × 0.004` (annualised,
then divided by 12 and rounded) exactly when the lower-cased property kind
(default `"Unknown"`) contains the substring `"condo"` or `"apartment"`,
and `0` otherwise; in particular the kind `"single family"` yields `0.00`
and `(400000, 1000, "condo")` yields `133.33`. -/
theorem c8_hoa_condo_or_apartment :
    (∀ (price sqft : Option ℚ) (kind : Option String),
      (estimate_monthly_costs price sqft kind).hoa_maintenance =
        if isCondoOrApartment (pyLower (pyOrStr kind "Unknown"))
        then round2 (pyOrQ price 500000 * 0.004 / 12)
        else 0) ∧
    (estimate_monthly_costs (some 500000) (some 1500)
        (some "single family")).hoa_maintenance = 0 ∧
    (estimate_monthly_costs (some 400000) (some 1000)
        (some "condo")).hoa_maintenance = 13333/100 := by
  have round2_zero : round2 ((0:ℚ)/12) = 0 := by
    rw [show ((0:ℚ)/12) = 0 by norm_num]
    exact round2_eq_of_bounds 0 (by norm_num) (by norm_num) (by norm_num)
  refine ⟨?_, ?_, ?_⟩
  · intro price sqft kind
    rw [estimate_monthly_costs_def]
    show round2 (annual_hoa _ _ / 12) = _
    unfold annual_hoa
    by_cases h : isCondoOrApartment (pyLower (pyOrStr kind "Unknown"))
    · rw [if_pos h, if_pos h]
    · rw [if_neg h, if_neg h, round2_zero]
  · have h : isCondoOrApartment (pyLower (pyOrStr (some "single family")
        "Unknown")) = false := by decide
    rw [estimate_monthly_costs_def]
    show round2 (annual_hoa _ _ / 12) = 0
    unfold annual_hoa
    rw [h]
    show round2 ((0:ℚ)/12) = 0
    exact round2_zero
  · have h : isCondoOrApartment (pyLower (pyOrStr (some "condo")
        "Unknown")) = true := by decide
    rw [estimate_monthly_costs_def]
    show round2 (annual_hoa _ _ / 12) = _
    unfold annual_hoa
    rw [h]
    show round2 (pyOrQ (some 400000) 500000 * 0.004 / 12) = _
    rw [show pyOrQ (some 400000) 500000 * 0.004 = 1600 by norm_num [pyOrQ]]
    exact round2_eq_of_bounds 13333 (by norm_num) (by norm_num) (by norm_num)

/-- C5.  A us-real-estate result is skipped (the batch continues) exactly
when its `description` object is absent or its `description.beds` value is
present, non-zero and strictly below 3; a result with `beds = 0` or no
`beds` key is kept.  In particular a one-bed result is dropped while a
result with no `beds` key survives the whole `parse_data` pipeline. -/
theorem c5_skip_characterization :
    (∀ props, parse_data .usRealEstate (.usData (usResponseOf props)) =
        props.filterMap parseUSProp) ∧
    (∀ p, (parseUSProp p).isNone = usSkipSpec p) ∧
    parse_data .usRealEstate (.usData (usResponseOf [c5BedsOne])) = [] ∧
    parse_data .usRealEstate (.usData (usResponseOf [c5NoBeds])) ≠ [] := by
  refine ⟨?_, ?_, by decide, by decide⟩
  · intro props
    show parse_us_data (usResponseOf props) = _
    cases props with
    | nil => rfl
    | cons h t => rfl
  · intro p
    unfold parseUSProp usSkipSpec
    cases hd : p.description with
    | none => rfl
    | some d =>
        cases hb : d.beds with
        | none => simp [hb]
        | some b =>
            simp only [hb]
            by_cases h1 : b = 0
            · simp [h1]
            · by_cases h2 : b < 3
              · simp [h1, h2]
              · simp [h1, h2]

/-- C2 counterexample.  A three-bed us-real-estate result with no
`primary_photo` key survives normalization and its record has a null
`thumbnail_url`, so not every canonical record has a non-null
`thumbnail_url`. -/
theorem c2_counterexample :
    (parse_data .usRealEstate (.usData (usResponseOf [c2Prop]))).map
        PropertyRecord.thumbnail_url = [none] ∧
    (parse_data .usRealEstate (.usData (usResponseOf [c2Prop]))).all
        (fun r => r.thumbnail_url.isSome) = false := by decide

/-- C2 (amended).  `price`, `address`, `bedrooms`, `bathrooms`, `sqft` and
`listing_url` are non-null by construction in every record of both
normalizers (they are filled with non-null defaults), and every Zillow
record also has a non-null `thumbnail_url`; but a us-real-estate record's
`thumbnail_url` is exactly the upstream `primary_photo.href` and is null
whenever `primary_photo` (or its `href`) is absent. -/
theorem c2_nonnull_fields :
    (∀ z r, r ∈ parse_zillow_data z → r.thumbnail_url.isSome = true) ∧
    (∀ p r, parseUSProp p = some r →
      r.thumbnail_url = p.primary_photo.bind PhotoObj.href) := by
  constructor
  · intro z r hr
    unfold parse_zillow_data at hr
    rcases List.mem_map.mp hr with ⟨p, _, rfl⟩
    rfl
  · intro p r h
    unfold parseUSProp at h
    cases hd : p.description with
    | none => rw [hd] at h; exact absurd h (by simp)
    | some d =>
        rw [hd] at h
        change (if d.beds.getD 0 ≠ 0 ∧ d.beds.getD 0 < 3 then none
                else some (usBuildRecord p d)) = some r at h
        by_cases hb : (d.beds.getD 0) ≠ 0 ∧ (d.beds.getD 0) < 3
        · rw [if_pos hb] at h
          exact absurd h (by simp)
        · rw [if_neg hb] at h
          injection h with h
          rw [← h]
          rfl

/-- Witness for `c2_nonnull_fields`: a Zillow record from an empty prop,
and the three-bed us-real-estate result `c2Prop`. -/
theorem c2_witness :
    (parseZillowProp emptyZProp).thumbnail_url.isSome = true ∧
    (usBuildRecord c2Prop { emptyUSDescription with beds := some 3 }).thumbnail_url =
      c2Prop.primary_photo.bind PhotoObj.href :=
  ⟨c2_nonnull_fields.1 { props := some [emptyZProp] } (parseZillowProp emptyZProp)
      (by decide),
   c2_nonnull_fields.2 c2Prop
      (usBuildRecord c2Prop { emptyUSDescription with beds := some 3 }) (by decide)⟩

/-- The Zillow record used in the C3 leakage scenario. -/
def c3Record : PropertyRecord :=
  parseZillowProp { emptyZProp with price := some 555 }

/-- C3.  Each POST to the `properties` route builds a fresh
`PropertyAggregator` (with `self.properties = []`), so the second of two
aggregations in the same process renders exactly its own two responses'
records: any record of the first run that its own responses do not produce
is absent from the second run's result list. -/
theorem c3_no_cross_run_leakage :
    ∀ (city1 state1 : String) (zf1 : Bool) (o1US o1Z : FetchOutcome)
      (city2 state2 : String) (zf2 : Bool) (o2US o2Z : FetchOutcome),
      appProperties city2 state2 zf2 o2US o2Z =
        fetch_data .usRealEstate o2US ++ fetch_data .zillow o2Z ∧
      (∀ r, r ∈ appProperties city1 state1 zf1 o1US o1Z →
        r ∉ fetch_data .usRealEstate o2US ++ fetch_data .zillow o2Z →
        r ∉ appProperties city2 state2 zf2 o2US o2Z) := by
  intro city1 state1 zf1 o1US o1Z city2 state2 zf2 o2US o2Z
  refine ⟨appProperties_eq city2 state2 zf2 o2US o2Z, ?_⟩
  intro r _ hnot hmem
  rw [appProperties_eq] at hmem
  exact hnot hmem

/-- Witness for `c3_no_cross_run_leakage`: the record fetched in a first
run for Nyack does not appear in a second run for Boston whose sources
both fail. -/
theorem c3_witness :
    c3Record ∉ appProperties "Boston" "MA" true .exn .exn :=
  (c3_no_cross_run_leakage "Nyack" "NY" false .exn c3OutZillow
      "Boston" "MA" true .exn .exn).2 c3Record (by decide) (by decide)

/-- The non-200 outcome used in the C7 witness. -/
def c7OutBad : FetchOutcome := .ok 500 (.usData { data := none })

/-- The successful Zillow outcome used in the C7 witness. -/
def c7OutZillow : FetchOutcome :=
  .ok 200 (.zData { props := some [{ emptyZProp with price := some 888 }] })

/-- C7.  When one source's fetch ends in a non-success status or a
transport exception, that source contributes the empty list and the
aggregated result is exactly the other source's normalized records (the
model is total, so no exception escapes the aggregation). -/
theorem c7_failed_source_contributes_nothing :
    ∀ (city state : String) (zf : Bool) (oUS oZ : FetchOutcome),
      (fetchFails oUS = true →
        appProperties city state zf oUS oZ = fetch_data .zillow oZ) ∧
      (fetchFails oZ = true →
        appProperties city state zf oUS oZ = fetch_data .usRealEstate oUS) := by
  intro city state zf oUS oZ
  constructor
  · intro h
    rw [appProperties_eq, fetch_data_of_fails h, List.nil_append]
  · intro h
    rw [appProperties_eq, fetch_data_of_fails h, List.append_nil]

/-- Witness for `c7_failed_source_contributes_nothing`: an HTTP 500 on the
us-real-estate source and a valid Zillow response. -/
theorem c7_witness :
    appProperties "Nyack" "NY" false c7OutBad c7OutZillow =
      fetch_data .zillow c7OutZillow :=
  (c7_failed_source_contributes_nothing "Nyack" "NY" false c7OutBad
      c7OutZillow).1 (by decide)

/-- C9 counterexample.  With the Zillow response completing first, the
completion-order merge puts the Zillow record first, but the code's
`asyncio.gather` merge still puts the us-real-estate record first: the
merge order is fixed task order, not completion order. -/
theorem c9_counterexample :
    appProperties "Nyack" "NY" true c9OutUS c9OutZillow ≠
      completionOrderMerge true c9OutUS c9OutZillow ∧
    appProperties "Nyack" "NY" true c9OutUS c9OutZillow =
      fetch_data .usRealEstate c9OutUS ++ fetch_data .zillow c9OutZillow := by
  decide

/-- C9 (amended).  The aggregated list is always the us-real-estate
records followed by the Zillow records — the fixed order in which the
tasks were passed to `asyncio.gather` — independent of which response
completed first. -/
theorem c9_fixed_task_order_merge :
    ∀ (city state : String) (zf : Bool) (oUS oZ : FetchOutcome),
      appProperties city state zf oUS oZ =
        fetch_data .usRealEstate oUS ++ fetch_data .zillow oZ ∧
      appProperties city state true oUS oZ =
        appProperties city state false oUS oZ := by
  intro city state zf oUS oZ
  exact ⟨appProperties_eq city state zf oUS oZ, rfl⟩

/-- C10 counterexample.  The Zillow normalizer hard-codes
`'property_type': 'Single Family'`: a prop whose upstream classification
is `"Condo"` and a prop with no upstream classification at all both yield
records whose `property_type` is `"Single Family"`, which is neither the
upstream string nor `"Unknown"`. -/
theorem c10_counterexample :
    (parse_zillow_data { props := some [c10PropTyped, c10PropUntyped] }).map
        PropertyRecord.property_type = ["Single Family", "Single Family"] ∧
    c10PropTyped.homeType = some "Condo" ∧
    c10PropUntyped.homeType = none ∧
    ("Single Family" : String) ≠ "Condo" ∧
    ("Single Family" : String) ≠ "Unknown" := by decide

/-- C10 (amended).  A us-real-estate record's `property_type` is the
upstream `description.type` string when present and `"Unknown"` when
absent; a Zillow record's `property_type` is always the constant
`"Single Family"`, regardless of the upstream classification. -/
theorem c10_property_type :
    (∀ p d r, p.description = some d → parseUSProp p = some r →
      r.property_type = d.type.getD "Unknown") ∧
    (∀ z r, r ∈ parse_zillow_data z → r.property_type = "Single Family") := by
  constructor
  · intro p d r hd h
    unfold parseUSProp at h
    rw [hd] at h
    change (if d.beds.getD 0 ≠ 0 ∧ d.beds.getD 0 < 3 then none
            else some (usBuildRecord p d)) = some r at h
    by_cases hb : (d.beds.getD 0) ≠ 0 ∧ (d.beds.getD 0) < 3
    · rw [if_pos hb] at h
      exact absurd h (by simp)
    · rw [if_neg hb] at h
      injection h with h
      rw [← h]
      rfl
  · intro z r hr
    unfold parse_zillow_data at hr
    rcases List.mem_map.mp hr with ⟨p, _, rfl⟩
    rfl

/-- Witness for `c10_property_type`: the three-bed result `c2Prop` (whose
description has no `type` key) and a Zillow record from `c10PropTyped`. -/
theorem c10_witness :
    (usBuildRecord c2Prop { emptyUSDescription with beds := some 3 }).property_type =
      ({ emptyUSDescription with beds := some 3 } : USDescription).type.getD "Unknown" ∧
    (parseZillowProp c10PropTyped).property_type = "Single Family" :=
  ⟨c10_property_type.1 c2Prop { emptyUSDescription with beds := some 3 }
      (usBuildRecord c2Prop { emptyUSDescription with beds := some 3 })
      (by decide) (by decide),
   c10_property_type.2 { props := some [c10PropTyped] }
      (parseZillowProp c10PropTyped) (by decide)⟩

/-- The code's fallback loop and the spec-side scan agree on every
candidate list. -/
lemma firstFallbackImage_eq_spec (l : List (Option String)) :
    firstFallbackImage l = specFirstGoodImage l := by
  induction l with
  | nil => rfl
  | cons h t ih =>
      cases h with
      | none =>
          unfold firstFallbackImage specFirstGoodImage
          rw [List.find?_cons_of_neg _ (by simp [acceptableImage])]
          exact ih
      | some s =>
          by_cases h1 : s = ""
          · unfold firstFallbackImage specFirstGoodImage
            rw [List.find?_cons_of_neg _ (by simp [acceptableImage, h1])]
            simp only [h1]
            rw [if_neg (by simp)]
            exact ih
          · by_cases h2 : strContains (pyLower s) "placeholder" = true
            · unfold firstFallbackImage specFirstGoodImage
              rw [List.find?_cons_of_neg _ (by simp [acceptableImage, h1, h2])]
              rw [if_neg (by simp [h1, h2])]
              exact ih
            · unfold firstFallbackImage specFirstGoodImage
              rw [List.find?_cons_of_pos _
                    (by simp [acceptableImage, h1,
                              Bool.not_eq_true (strContains (pyLower s) "placeholder") ▸ h2])]
              rw [if_pos ⟨h1, Bool.not_eq_true _ ▸ h2⟩]
              rfl

/-- C6.  For every Zillow prop, the record's `thumbnail_url` is (non-null
and) resolved exactly as the claim describes: `imgSrc` if non-empty,
otherwise the first fallback candidate that is a non-empty string not
containing `"placeholder"` case-insensitively, otherwise the synthesized
placeholder URL; and the prop with no image fields, 3 bedrooms and 2
bathrooms yields a URL containing the URL-encoded text `3 Bed 2 Bath`. -/
theorem c6_thumbnail_resolution :
    (∀ p, (parseZillowProp p).thumbnail_url = some (specZillowThumbnail p)) ∧
    strContains (specZillowThumbnail c6Prop) "3%20Bed%202%20Bath" = true ∧
    (parseZillowProp c6Prop).thumbnail_url =
      some "https://via.placeholder.com/200x150.png?text=3%20Bed%202%20Bath" := by
  have key : ∀ p, zillowThumbnail p = specZillowThumbnail p := by
    intro p
    unfold zillowThumbnail specZillowThumbnail zillowImageSources
    rw [firstFallbackImage_eq_spec]
    cases himg : p.imgSrc with
    | none => rfl
    | some s =>
        by_cases hs : s = ""
        · simp [hs]
        · simp [hs]
  refine ⟨fun p => ?_, by decide, by decide⟩
  show some (zillowThumbnail p) = some (specZillowThumbnail p)
  rw [key]
